import Mathlib

/-!
Shallow embedding of `src/emotion_recognition.py` (classes
`EmotionRecognitionSystem` and `EmotionGUI`).  Python floats are modelled as
rationals, Python dicts as association lists, and the external DeepFace
model, the camera, the clock and the TTS engine as explicit inputs.  The two
front-end loops become step functions over explicit state records, with the
Python local-variable semantics (an unassigned local raises at use) made
explicit through `Option`.
-/

namespace EmotionRec

/-- Association-list lookup modelling a Python dict subscript: `some v` when
the key is present, `none` standing for a raised `KeyError`. -/
def dictGet {α : Type} : List (String × α) → String → Option α
  | [], _ => none
  | (k, v) :: rest, key => if k = key then some v else dictGet rest key

/-- One analysis result from the external DeepFace model: the declared
dominant emotion together with the per-class score mapping
(`result['dominant_emotion']` and `result['emotion']`). -/
structure DFResult where
  dominant_emotion : String
  emotion : List (String × Rat)
deriving DecidableEq

/-- Raw shape of `DeepFace.analyze` output: a single result dict or a list of
per-face results; the code takes element `0` of a list (line 73-74). -/
inductive DFRaw
  | single (r : DFResult)
  | many (rs : List DFResult)
deriving DecidableEq

/-- The `isinstance(result, list)` branch of `detect_emotion`: a list yields
its first element (raising, i.e. `none`, when the list is empty). -/
def dfExtract : DFRaw → Option DFResult
  | DFRaw.single r => some r
  | DFRaw.many rs => rs.head?

/-- DeepFace contract for the opaque model boundary: the declared dominant
emotion really is a key of the score mapping carrying a maximal score. -/
def DFWellFormed (r : DFResult) : Prop :=
  ∃ c, dictGet r.emotion r.dominant_emotion = some c ∧ ∀ p ∈ r.emotion, p.2 ≤ c

/-- `EmotionRecognitionSystem.detect_emotion` (lines 66-83).  The model call
outcome is the explicit input: `Except.error` stands for any exception from
`DeepFace.analyze`; key lookup failure is likewise caught by the
`except` clause.  The sentinel is `("unknown", 0.0, {})`. -/
def detect_emotion (m : Except Unit DFRaw) : String × Rat × List (String × Rat) :=
  match m with
  | Except.error _ => ("unknown", 0, [])
  | Except.ok raw =>
    match dfExtract raw with
    | none => ("unknown", 0, [])
    | some r =>
      match dictGet r.emotion r.dominant_emotion with
      | none => ("unknown", 0, [])
      | some c => (r.dominant_emotion, c, r.emotion)

/-- The hardcoded `self.voice_cooldown = 3` seconds (line 25). -/
def voice_cooldown : Rat := 3

/-- Voice-notifier state: TTS engine availability (`self.tts_engine` not
`None`), `self.voice_enabled` and `self.last_voice_time`. -/
structure VoiceState where
  ttsAvailable : Bool
  voiceEnabled : Bool
  lastVoiceTime : Rat
deriving DecidableEq

/-- `EmotionRecognitionSystem.speak_emotion` (lines 85-104): returns whether a
speech task was started, and the updated state (`last_voice_time` is set to
`now` exactly when it fires). -/
def speak_emotion (s : VoiceState) (now : Rat) : Bool × VoiceState :=
  if !s.ttsAvailable || !s.voiceEnabled then (false, s)
  else if now - s.lastVoiceTime < voice_cooldown then (false, s)
  else (true, { s with lastVoiceTime := now })

/-- One record of the daily log file (the dict built at lines 109-114). -/
structure LogRecord where
  timestamp : String
  dominant_emotion : String
  confidence : Rat
  all_emotions : List (String × Rat)
deriving DecidableEq

/-- Parsed content of one log file: the JSON array of records plus the
`indent` argument passed to `json.dump` (pretty-printing). -/
structure FileContent where
  records : List LogRecord
  indent : Option Nat
deriving DecidableEq

/-- The filesystem as a map from paths to parsed JSON file contents. -/
abbrev FS : Type := List (String × FileContent)

/-- Reading and parsing the file at a path (`none`: file absent). -/
def readFile (fs : FS) (p : String) : Option FileContent :=
  dictGet fs p

/-- Writing a file: replaces the content at the path, or creates it. -/
def writeFile : FS → String → FileContent → FS
  | [], p, c => [(p, c)]
  | (q, c0) :: rest, p, c =>
    if q = p then (p, c) :: rest else (q, c0) :: writeFile rest p c

/-- The per-day log path `f"logs/emotion_log_{...strftime('%Y%m%d')}.json"`
(line 116). -/
def logFilePath (date : String) : String :=
  "logs/emotion_log_" ++ date ++ ".json"

/-- The data `log_emotion` receives per call: the clock-supplied ISO
timestamp plus the classified emotion, confidence and score mapping. -/
structure LogInput where
  ts : String
  emo : String
  conf : Rat
  alls : List (String × Rat)
deriving DecidableEq

/-- The record built at lines 109-114 from one log input. -/
def mkLogRecord (e : LogInput) : LogRecord :=
  ⟨e.ts, e.emo, e.conf, e.alls⟩

/-- `EmotionRecognitionSystem.log_emotion` (lines 106-134): read the existing
array (empty if the file is absent), append the new record, and rewrite the
whole file with `indent=2`. -/
def log_emotion (fs : FS) (date : String) (e : LogInput) : FS :=
  let path := logFilePath date
  let logs :=
    match readFile fs path with
    | some c => c.records
    | none => []
  writeFile fs path ⟨logs ++ [mkLogRecord e], some 2⟩

/-- Folding a sequence of appends on the same day through `log_emotion`. -/
def logAppendAll (fs : FS) (date : String) : List LogInput → FS
  | [] => fs
  | e :: es => logAppendAll (log_emotion fs date e) date es

/-- The mutable session state shared by both front ends:
`self.current_emotion`, `self.current_confidence`, the voice-notifier state
and the filesystem holding the log files. -/
structure SysState where
  current_emotion : String
  current_confidence : Rat
  voice : VoiceState
  fs : FS
deriving DecidableEq

/-- Session state right after `EmotionRecognitionSystem.__init__`
(lines 17-25), with the given TTS-initialization outcome. -/
def sysInit (tts : Bool) : SysState :=
  { current_emotion := "Unknown"
    current_confidence := 0
    voice := { ttsAvailable := tts, voiceEnabled := true, lastVoiceTime := 0 }
    fs := [] }

/-- One classified reading as consumed by a classification tick: the
wall-clock time, ISO timestamp and date supplied by the clock, plus the
triple returned by `detect_emotion`. -/
structure Reading where
  time : Rat
  ts : String
  date : String
  label : String
  conf : Rat
  scores : List (String × Rat)
deriving DecidableEq

/-- The classification-tick body shared verbatim by both front ends
(console lines 209-218, GUI lines 357-364): when the label is not the
sentinel, update the current reading, append a log record, and when
`confidence > 70` invoke `speak_emotion`.  Returns the new state and
whether a voice notification fired. -/
def processReading (s : SysState) (r : Reading) : SysState × Bool :=
  if r.label = "unknown" then (s, false)
  else
    let s1 : SysState := { s with current_emotion := r.label, current_confidence := r.conf }
    let s2 : SysState := { s1 with fs := log_emotion s1.fs r.date ⟨r.ts, r.label, r.conf, r.scores⟩ }
    if 70 < r.conf then
      let p := speak_emotion s2.voice r.time
      ({ s2 with voice := p.2 }, p.1)
    else (s2, false)

/-- Wall-clock times of the voice notifications fired while processing a
sequence of classified readings through `processReading`. -/
def firedTimes (s : SysState) : List Reading → List Rat
  | [] => []
  | r :: rs =>
    let p := processReading s r
    if p.2 then r.time :: firedTimes p.1 rs else firedTimes p.1 rs

/-- Keys handled by the console loop (lines 232-243). -/
inductive Key
  | q
  | v
  | s
  | noKey
deriving DecidableEq

/-- Python runtime errors the console loop can raise. -/
inductive PyErr
  | unboundLocal
deriving DecidableEq

/-- External inputs consumed by one console-loop iteration: the camera read
outcome, the model-call outcome, the clock values and the pressed key. -/
structure ConsoleInput where
  readOk : Bool
  model : Except Unit DFRaw
  time : Rat
  ts : String
  date : String
  key : Key

/-- State of `run_console_mode`: the session state, the local
`frame_count`, the Python local `all_emotions` (`none` while still
unassigned), and the resource flags touched by `cleanup`. -/
structure ConsoleState where
  sys : SysState
  frame_count : Nat
  all_emotions_local : Option (List (String × Rat))
  is_running : Bool
  camReleased : Bool
  windowsDestroyed : Bool
deriving DecidableEq

/-- Console-mode state right after entering the loop (lines 183-193). -/
def consoleInit : ConsoleState :=
  { sys := sysInit true
    frame_count := 0
    all_emotions_local := none
    is_running := true
    camReleased := false
    windowsDestroyed := false }

/-- `EmotionRecognitionSystem.cleanup` (lines 247-253). -/
def cleanup (c : ConsoleState) : ConsoleState :=
  { c with is_running := false, camReleased := true, windowsDestroyed := true }

/-- One iteration of the `while` loop of `run_console_mode` (lines
195-243).  Returns `Except.error` when the iteration raises
(`all_emotions` referenced before assignment at line 226), otherwise the
new state and whether the loop continues (`false` on `break`). -/
def consoleTick (c : ConsoleState) (i : ConsoleInput) : Except PyErr (ConsoleState × Bool) :=
  if i.readOk = false then Except.ok (c, false)
  else
    let fc := c.frame_count + 1
    let c1 : ConsoleState :=
      if fc % 3 = 0 then
        let reading := detect_emotion i.model
        let p := processReading c.sys ⟨i.time, i.ts, i.date, reading.1, reading.2.1, reading.2.2⟩
        { c with sys := p.1, frame_count := fc, all_emotions_local := some reading.2.2 }
      else { c with frame_count := fc }
    match c1.all_emotions_local with
    | none => Except.error PyErr.unboundLocal
    | some _ =>
      match i.key with
      | Key.q => Except.ok (c1, false)
      | Key.v =>
        Except.ok
          ({ c1 with
              sys := { c1.sys with
                voice := { c1.sys.voice with voiceEnabled := !c1.sys.voice.voiceEnabled } } },
            true)
      | Key.s => Except.ok (c1, true)
      | Key.noKey => Except.ok (c1, true)

/-- Driving the console loop over a script of per-tick inputs: a raised
error propagates (no cleanup), a `break` runs `cleanup` (line 245). -/
def consoleRun (c : ConsoleState) : List ConsoleInput → Except PyErr ConsoleState
  | [] => Except.ok c
  | i :: is =>
    match consoleTick c i with
    | Except.error e => Except.error e
    | Except.ok (c1, true) => consoleRun c1 is
    | Except.ok (c1, false) => Except.ok (cleanup c1)

/-- External inputs consumed by one iteration of the GUI background thread
`process_video` (lines 340-374). -/
structure GuiInput where
  readOk : Bool
  frame : Nat
  model : Except Unit DFRaw
  time : Rat
  ts : String
  date : String

/-- One item of the hand-off queue: the converted frame plus the emotion
and confidence captured at `put` time (lines 373-374). -/
abbrev QItem : Type := Nat × String × Rat

/-- State of an `EmotionGUI`: the wrapped session state, the GUI-level
running flag, resource flags, the `process_video` local `frame_count`,
`self.current_frame`, the hand-off queue and the displayed item. -/
structure GuiState where
  sys : SysState
  gui_running : Bool
  camReleased : Bool
  displayCleared : Bool
  frame_count : Nat
  current_frame : Option Nat
  queue : List QItem
  displayed : Option QItem
deriving DecidableEq

/-- GUI state right after `EmotionGUI.__init__` (lines 256-266): no frame
captured yet, empty queue, not running. -/
def guiInit : GuiState :=
  { sys := sysInit true
    gui_running := false
    camReleased := false
    displayCleared := false
    frame_count := 0
    current_frame := none
    queue := []
    displayed := none }

/-- The `maxsize` of `queue.Queue()` at line 264: Python's default `0`,
meaning the queue is infinite. -/
def frame_queue_maxsize : Nat := 0

/-- `Queue.put` for a queue constructed with `maxsize=0`: never blocks and
never drops, the item is appended at the tail. -/
def queue_put (q : List QItem) (x : QItem) : List QItem :=
  q ++ [x]

/-- One iteration of the background thread body `process_video`
(lines 344-374).  Returns the new state and whether the thread keeps
looping (`false` when the `while` guard fails or the read breaks). -/
def process_video_tick (g : GuiState) (i : GuiInput) : GuiState × Bool :=
  if g.gui_running = false then (g, false)
  else if i.readOk = false then (g, false)
  else
    let g1 : GuiState := { g with current_frame := some i.frame }
    let fc := g1.frame_count + 1
    let g2 : GuiState :=
      if fc % 3 = 0 then
        let reading := detect_emotion i.model
        let p := processReading g1.sys ⟨i.time, i.ts, i.date, reading.1, reading.2.1, reading.2.2⟩
        { g1 with sys := p.1, frame_count := fc }
      else { g1 with frame_count := fc }
    ({ g2 with
        queue := queue_put g2.queue (i.frame, g2.sys.current_emotion, g2.sys.current_confidence) },
      true)

/-- Driving the background thread over a script of per-tick inputs; the
thread exits (without touching the camera) when a tick reports `false`. -/
def guiRun (g : GuiState) : List GuiInput → GuiState
  | [] => g
  | i :: is =>
    let p := process_video_tick g i
    if p.2 then guiRun p.1 is else p.1

/-- `EmotionGUI.stop_camera` (lines 319-325): clears the running flag, runs
`cleanup` (releasing the camera and destroying windows) and clears the
video label. -/
def stop_camera (g : GuiState) : GuiState :=
  { g with gui_running := false, camReleased := true, displayCleared := true }

/-- `EmotionGUI.update_gui` (lines 376-391): when the queue is non-empty
take exactly one item (`get_nowait`) and show it, otherwise do nothing and
keep the prior display. -/
def update_gui (g : GuiState) : GuiState :=
  match g.queue with
  | [] => g
  | x :: rest => { g with queue := rest, displayed := some x }

/-- Observable effects of `EmotionGUI.take_screenshot` (lines 333-338). -/
structure ScreenshotResult where
  fileWritten : Option String
  dialogShown : Bool
deriving DecidableEq

/-- `EmotionGUI.take_screenshot` (lines 333-338): guarded by
`hasattr(self, 'current_frame') and self.current_frame is not None`; when a
frame exists, write the jpg and show the info dialog, otherwise do
nothing. -/
def take_screenshot (currentFrame : Option Nat) (ts : String) : ScreenshotResult :=
  match currentFrame with
  | none => { fileWritten := none, dialogShown := false }
  | some _ => { fileWritten := some ("gui_screenshot_" ++ ts ++ ".jpg"), dialogShown := true }

/-- Outcome of a start command, for both front ends. -/
structure StartResult where
  running : Bool
  loopEntered : Bool
  threadStarted : Bool
  errorSurfaced : Bool
deriving DecidableEq

/-- `EmotionRecognitionSystem.initialize_camera` (lines 51-64): returns
whether the webcam opened; an open failure is caught and reported. -/
def initialize_camera (camOpens : Bool) : Bool :=
  camOpens

/-- The start of `run_console_mode` (lines 183-195): on camera failure the
method returns before `is_running` is set and the loop is never entered;
the error was printed inside `initialize_camera`. -/
def run_console_mode_start (camOpens : Bool) : StartResult :=
  if initialize_camera camOpens then
    { running := true, loopEntered := true, threadStarted := false, errorSurfaced := false }
  else
    { running := false, loopEntered := false, threadStarted := false, errorSurfaced := true }

/-- `EmotionGUI.start_camera` (lines 304-317): on camera failure an error
dialog is shown and no background thread is started. -/
def start_camera (camOpens : Bool) : StartResult :=
  if initialize_camera camOpens then
    { running := true, loopEntered := false, threadStarted := true, errorSurfaced := false }
  else
    { running := false, loopEntered := false, threadStarted := false, errorSurfaced := true }

/-- Program position of the background `process_video` thread, at the
granularity relevant to stopping: the `while self.is_running` test
(line 344), the `cap.read()` call (line 345), the rest of the body, or
thread exit. -/
inductive VPos
  | loopCheck
  | camRead
  | body
  | exited
deriving DecidableEq

/-- Joint state of the background thread and the camera resource. -/
structure ThreadCamState where
  is_running : Bool
  camReleased : Bool
  pos : VPos
deriving DecidableEq

/-- One atomic step of the background thread: the loop guard observes
`is_running`; a read on a released camera returns `ret = False` and the
thread breaks; otherwise the body runs and returns to the guard. -/
def videoThreadStep (c : ThreadCamState) : ThreadCamState :=
  match c.pos with
  | VPos.loopCheck =>
    if c.is_running then { c with pos := VPos.camRead } else { c with pos := VPos.exited }
  | VPos.camRead =>
    if c.camReleased then { c with pos := VPos.exited } else { c with pos := VPos.body }
  | VPos.body => { c with pos := VPos.loopCheck }
  | VPos.exited => c

/-- Atomic events of an interleaved execution: a thread step, or the two
statements of `stop_camera` (line 321 sets the flag, line 322 releases the
camera via `cleanup`) which run on the UI thread with no join in
between. -/
inductive StopEvt
  | thread
  | stopSetFlag
  | stopRelease
deriving DecidableEq

/-- Executing one interleaving of thread steps and stop statements. -/
def interleave (c : ThreadCamState) : List StopEvt → ThreadCamState
  | [] => c
  | e :: es =>
    interleave
      (match e with
        | StopEvt.thread => videoThreadStep c
        | StopEvt.stopSetFlag => { c with is_running := false }
        | StopEvt.stopRelease => { c with camReleased := true })
      es

/-- GUI state with the capture session started by `start_camera`. -/
def startedGui : GuiState :=
  { guiInit with gui_running := true }

/-- Concrete frame-read failure input for the GUI background thread. -/
def badRead : GuiInput :=
  { readOk := false, frame := 0, model := Except.error (), time := 0, ts := "t0", date := "d0" }

/-- Concrete successfully-read GUI frame whose model call fails. -/
def goodGuiInput : GuiInput :=
  { readOk := true, frame := 1, model := Except.error (), time := 1, ts := "t1", date := "d0" }

/-- Concrete six-tick GUI script: a successful classification of `happy`
at confidence `60` on tick 3, then a classifier failure on tick 6. -/
def guiScriptC5 : List GuiInput :=
  [{ readOk := true, frame := 1, model := Except.error (), time := 1, ts := "t1", date := "d0" },
   { readOk := true, frame := 2, model := Except.error (), time := 2, ts := "t2", date := "d0" },
   { readOk := true, frame := 3,
     model := Except.ok (DFRaw.single ⟨"happy", [("happy", 60), ("sad", 40)]⟩),
     time := 3, ts := "t3", date := "d0" },
   { readOk := true, frame := 4, model := Except.error (), time := 4, ts := "t4", date := "d0" },
   { readOk := true, frame := 5, model := Except.error (), time := 5, ts := "t5", date := "d0" },
   { readOk := true, frame := 6, model := Except.error (), time := 6, ts := "t6", date := "d0" }]

/-- Concrete frame-read failure input for the console loop. -/
def badConsoleRead : ConsoleInput :=
  { readOk := false, model := Except.error (), time := 0, ts := "t0", date := "d0",
    key := Key.noKey }

/-- Concrete quit keypress on a successfully read console frame. -/
def quitInput : ConsoleInput :=
  { readOk := true, model := Except.error (), time := 0, ts := "t0", date := "d0",
    key := Key.q }

/-- Concrete first console tick: frame read succeeds, no key pressed. -/
def firstConsoleInput : ConsoleInput :=
  { readOk := true, model := Except.error (), time := 5, ts := "t0", date := "d0",
    key := Key.noKey }

/-- Console state in which the render local `all_emotions` is bound
(as it is from the first classification tick onwards). -/
def consoleWithReading : ConsoleState :=
  { consoleInit with all_emotions_local := some [] }

/-- GUI state two ticks into the background loop: the next tick is a
classification tick. -/
def guiPreClassifyTick : GuiState :=
  { startedGui with frame_count := 2 }

/-- A successfully read frame on which the model call fails. -/
def failingClassifyInput : GuiInput :=
  { readOk := true, frame := 7, model := Except.error (), time := 9, ts := "t9", date := "d0" }

/-- Lemma: reading back a freshly written path yields the written content. -/
theorem readFile_writeFile_same (fs : FS) (p : String) (c : FileContent) :
    readFile (writeFile fs p c) p = some c := by
  induction fs with
  | nil => simp [writeFile, readFile, dictGet]
  | cons hd tl ih =>
    obtain ⟨q, c0⟩ := hd
    by_cases h : q = p
    · subst h
      simp [writeFile, readFile, dictGet]
    · simp [writeFile, readFile, dictGet, h] at ih ⊢
      exact ih

/-- Lemma: appending a batch to an existing parsed array extends it in
order, keeping the pretty-printing indent. -/
theorem logAppendAll_existing (d : String) :
    ∀ (es : List LogInput) (fs : FS) (l : List LogRecord),
      readFile fs (logFilePath d) = some ⟨l, some 2⟩ →
      readFile (logAppendAll fs d es) (logFilePath d) =
        some ⟨l ++ es.map mkLogRecord, some 2⟩ := by
  intro es
  induction es with
  | nil =>
    intro fs l h
    simpa [logAppendAll] using h
  | cons e es ih =>
    intro fs l h
    have hstep : readFile (log_emotion fs d e) (logFilePath d) =
        some ⟨l ++ [mkLogRecord e], some 2⟩ := by
      simp only [log_emotion, h]
      exact readFile_writeFile_same fs (logFilePath d) _
    have := ih (log_emotion fs d e) (l ++ [mkLogRecord e]) hstep
    simpa [logAppendAll, List.append_assoc] using this

/-- C1: the classifier adapter `detect_emotion` is total (it returns a
triple for every model-call outcome, never raising); it returns the
sentinel `("unknown", 0.0, {})` whenever the model call raises, returns no
result, or declares a dominant emotion absent from the score mapping; on
success it returns the declared dominant label, that label's score and the
full score mapping, and under the DeepFace contract (`DFWellFormed`: the
declared dominant emotion carries a maximal score) the returned score is
maximal among all per-class scores. -/
theorem detect_emotion_spec :
    (∀ e : Unit, detect_emotion (Except.error e) = ("unknown", 0, [])) ∧
    (∀ raw, dfExtract raw = none → detect_emotion (Except.ok raw) = ("unknown", 0, [])) ∧
    (∀ raw r, dfExtract raw = some r → dictGet r.emotion r.dominant_emotion = none →
      detect_emotion (Except.ok raw) = ("unknown", 0, [])) ∧
    (∀ raw r c, dfExtract raw = some r → dictGet r.emotion r.dominant_emotion = some c →
      detect_emotion (Except.ok raw) = (r.dominant_emotion, c, r.emotion)) ∧
    (∀ raw r c, dfExtract raw = some r → DFWellFormed r →
      dictGet r.emotion r.dominant_emotion = some c → ∀ p ∈ r.emotion, p.2 ≤ c) := by
  refine ⟨fun _ => rfl, ?_, ?_, ?_, ?_⟩
  · intro raw h
    simp [detect_emotion, h]
  · intro raw r h1 h2
    simp [detect_emotion, h1, h2]
  · intro raw r c h1 h2
    simp [detect_emotion, h1, h2]
  · intro raw r c _ hwf h2 p hp
    obtain ⟨c0, hc0, hmax⟩ := hwf
    have hcc : c0 = c := by
      rw [hc0] at h2
      exact Option.some.inj h2
    subst hcc
    exact hmax p hp

/-- Witness for C1: a failing model call yields the sentinel and a
successful one yields the dominant label with its score and mapping. -/
theorem detect_emotion_spec_inst :
    detect_emotion (Except.error ()) = ("unknown", 0, []) ∧
    detect_emotion (Except.ok (DFRaw.single ⟨"happy", [("happy", 82), ("sad", 2)]⟩)) =
      ("happy", 82, [("happy", 82), ("sad", 2)]) :=
  ⟨detect_emotion_spec.1 (),
    detect_emotion_spec.2.2.2.1 (DFRaw.single ⟨"happy", [("happy", 82), ("sad", 2)]⟩)
      ⟨"happy", [("happy", 82), ("sad", 2)]⟩ 82 rfl (by simp [dictGet])⟩

/-- C3: starting from a day with no log file, a non-empty sequence of
appends on that day leaves, at the path `logs/emotion_log_<date>.json`, a
pretty-printed (`indent=2`) JSON array that parses to exactly the appended
records in append order, each carrying the supplied timestamp, dominant
emotion, confidence and full score mapping; every append rewrote the whole
array. -/
theorem log_append_roundtrip (fs : FS) (d : String) (es : List LogInput)
    (habsent : readFile fs (logFilePath d) = none) (hne : es ≠ []) :
    readFile (logAppendAll fs d es) (logFilePath d) =
      some ⟨es.map mkLogRecord, some 2⟩ := by
  cases es with
  | nil => exact absurd rfl hne
  | cons e es =>
    have hstep : readFile (log_emotion fs d e) (logFilePath d) =
        some ⟨[mkLogRecord e], some 2⟩ := by
      simp only [log_emotion, habsent]
      exact readFile_writeFile_same fs (logFilePath d) _
    have := logAppendAll_existing d es (log_emotion fs d e) [mkLogRecord e] hstep
    simpa [logAppendAll] using this

/-- Witness for C3: two appends on an empty filesystem produce a file with
exactly those two records in order. -/
theorem log_append_roundtrip_inst :
    readFile
      (logAppendAll [] "20261012"
        [⟨"t1", "happy", 82, [("happy", 82)]⟩, ⟨"t2", "sad", 30, [("sad", 30)]⟩])
      (logFilePath "20261012") =
      some ⟨[⟨"t1", "happy", 82, [("happy", 82)]⟩, ⟨"t2", "sad", 30, [("sad", 30)]⟩], some 2⟩ :=
  log_append_roundtrip [] "20261012"
    [⟨"t1", "happy", 82, [("happy", 82)]⟩, ⟨"t2", "sad", 30, [("sad", 30)]⟩]
    rfl (by simp)

/-- C4 (code bug): the very first console-mode loop iteration raises
`UnboundLocalError`: tick 1 is not a classification tick
(`frame_count % 3 ≠ 0`), yet the render call at line 226 reads the local
`all_emotions`, which no iteration has assigned yet, so the loop crashes
before the first classification tick (3) is ever reached. -/
theorem console_first_tick_unbound_local :
    consoleRun consoleInit [firstConsoleInput] = Except.error PyErr.unboundLocal := by
  rfl

/-- C7: when the camera fails to open on the start command, both front ends
stay idle: no running flag is set, the console loop is never entered, no
background thread is started, and a user-visible error is surfaced. -/
theorem camera_open_failure_idle :
    run_console_mode_start false =
      { running := false, loopEntered := false, threadStarted := false, errorSurfaced := true } ∧
    start_camera false =
      { running := false, loopEntered := false, threadStarted := false, errorSurfaced := true } :=
  ⟨rfl, rfl⟩

/-- Lemma: the cooldown constant is nonnegative. -/
theorem voice_cooldown_nonneg : (0 : Rat) ≤ voice_cooldown := by
  norm_num [voice_cooldown]

/-- Lemma: on any classification tick, either a voice notification fires —
in which case `last_voice_time` becomes the tick time and the previous
`last_voice_time` was at least a cooldown ago — or it does not fire and
`last_voice_time` is unchanged. -/
theorem processReading_lastVoice (s : SysState) (r : Reading) :
    ((processReading s r).2 = true ∧
      (processReading s r).1.voice.lastVoiceTime = r.time ∧
      s.voice.lastVoiceTime + voice_cooldown ≤ r.time) ∨
    ((processReading s r).2 = false ∧
      (processReading s r).1.voice.lastVoiceTime = s.voice.lastVoiceTime) := by
  by_cases h1 : r.label = "unknown"
  · exact Or.inr (by simp [processReading, h1])
  · by_cases h2 : (70 : Rat) < r.conf
    · by_cases h3 : (!s.voice.ttsAvailable || !s.voice.voiceEnabled) = true
      · exact Or.inr (by simp [processReading, speak_emotion, h1, h2, h3])
      · by_cases h4 : r.time - s.voice.lastVoiceTime < voice_cooldown
        · exact Or.inr (by simp [processReading, speak_emotion, h1, h2, h3, h4])
        · refine Or.inl ⟨by simp [processReading, speak_emotion, h1, h2, h3, h4],
            by simp [processReading, speak_emotion, h1, h2, h3, h4], ?_⟩
          simp only [not_lt] at h4
          linarith
    · exact Or.inr (by simp [processReading, speak_emotion, h1, h2])

/-- Lemma: the per-step firing condition, given an available TTS engine and
the classifier-adapter contract that a sentinel label means confidence 0:
a notification fires exactly when voice is enabled, confidence exceeds 70,
and the cooldown has elapsed since `last_voice_time`. -/
theorem processReading_fires_iff (s : SysState) (r : Reading)
    (htts : s.voice.ttsAvailable = true) (hsent : r.label = "unknown" → r.conf = 0) :
    (processReading s r).2 = true ↔
      (s.voice.voiceEnabled = true ∧ 70 < r.conf ∧
        s.voice.lastVoiceTime + voice_cooldown ≤ r.time) := by
  by_cases h1 : r.label = "unknown"
  · have hc := hsent h1
    have hL : (processReading s r).2 = false := by simp [processReading, h1]
    refine iff_of_false (by simp [hL]) ?_
    rintro ⟨-, h70, -⟩
    rw [hc] at h70
    exact absurd h70 (by norm_num)
  · by_cases h2 : (70 : Rat) < r.conf
    · by_cases hen : s.voice.voiceEnabled = true
      · by_cases h4 : r.time - s.voice.lastVoiceTime < voice_cooldown
        · have hL : (processReading s r).2 = false := by
            simp [processReading, speak_emotion, h1, h2, htts, hen, h4]
          refine iff_of_false (by simp [hL]) ?_
          rintro ⟨-, -, hcool⟩
          linarith
        · have hL : (processReading s r).2 = true := by
            simp [processReading, speak_emotion, h1, h2, htts, hen, h4]
          refine iff_of_true hL ⟨hen, h2, ?_⟩
          simp only [not_lt] at h4
          linarith
      · have hL : (processReading s r).2 = false := by
          simp [processReading, speak_emotion, h1, h2, htts, hen]
        refine iff_of_false (by simp [hL]) ?_
        rintro ⟨he, -, -⟩
        exact hen he
    · have hL : (processReading s r).2 = false := by
        simp [processReading, speak_emotion, h1, h2]
      refine iff_of_false (by simp [hL]) ?_
      rintro ⟨-, h70, -⟩
      exact h2 h70

/-- Lemma: a notification never fires when voice is disabled or confidence
is at most 70, regardless of the TTS or cooldown state. -/
theorem processReading_no_fire (s : SysState) (r : Reading)
    (h : s.voice.voiceEnabled = false ∨ r.conf ≤ 70) :
    (processReading s r).2 = false := by
  by_cases h1 : r.label = "unknown"
  · simp [processReading, h1]
  · by_cases h2 : (70 : Rat) < r.conf
    · have hen : s.voice.voiceEnabled = false := by
        rcases h with h | h
        · exact h
        · linarith
      simp [processReading, speak_emotion, h1, h2, hen]
    · simp [processReading, speak_emotion, h1, h2]

/-- Lemma: every fired time is at least a cooldown after the incoming
`last_voice_time`. -/
theorem firedTimes_lower :
    ∀ (rs : List Reading) (s : SysState), ∀ u ∈ firedTimes s rs,
      s.voice.lastVoiceTime + voice_cooldown ≤ u := by
  intro rs
  induction rs with
  | nil =>
    intro s u hu
    simp [firedTimes] at hu
  | cons r rs ih =>
    intro s u hu
    rcases processReading_lastVoice s r with ⟨hf, hlv, hle⟩ | ⟨hf, hlv⟩
    · simp only [firedTimes, hf, if_true, List.mem_cons] at hu
      rcases hu with h | h
      · subst h
        exact hle
      · have hrec := ih (processReading s r).1 u h
        rw [hlv] at hrec
        have h0 := voice_cooldown_nonneg
        linarith
    · simp only [firedTimes, hf, Bool.false_eq_true, if_false] at hu
      have hrec := ih (processReading s r).1 u hu
      rw [hlv] at hrec
      exact hrec

/-- Lemma: the fired notification times have pairwise gaps of at least the
cooldown. -/
theorem firedTimes_pairwise :
    ∀ (rs : List Reading) (s : SysState),
      (firedTimes s rs).Pairwise (fun a b => a + voice_cooldown ≤ b) := by
  intro rs
  induction rs with
  | nil =>
    intro s
    simp [firedTimes]
  | cons r rs ih =>
    intro s
    rcases processReading_lastVoice s r with ⟨hf, hlv, _⟩ | ⟨hf, _⟩
    · simp only [firedTimes, hf, if_true]
      refine List.Pairwise.cons ?_ (ih (processReading s r).1)
      intro u hu
      have hlow := firedTimes_lower rs (processReading s r).1 u hu
      rw [hlv] at hlow
      exact hlow
    · simp only [firedTimes, hf, Bool.false_eq_true, if_false]
      exact ih (processReading s r).1

/-- C2: for classified readings processed by the loop body (lines 209-218 /
357-364 plus `speak_emotion`), assuming the TTS engine initialized and the
classifier-adapter contract (a sentinel label carries confidence 0), a
voice notification fires on a reading exactly when voice is enabled, the
confidence is strictly greater than 70, and at least the 3-second cooldown
has elapsed since `last_voice_time` (which records the last fired
notification, and is 0 before the first); consequently it never fires when
voice is disabled or confidence is at most 70, and over any sequence of
readings the fired notification times have pairwise gaps of at least the
cooldown. -/
theorem voice_notifier_spec :
    (∀ (s : SysState) (r : Reading), s.voice.ttsAvailable = true →
      (r.label = "unknown" → r.conf = 0) →
      ((processReading s r).2 = true ↔
        (s.voice.voiceEnabled = true ∧ 70 < r.conf ∧
          s.voice.lastVoiceTime + voice_cooldown ≤ r.time))) ∧
    (∀ (s : SysState) (r : Reading), s.voice.voiceEnabled = false ∨ r.conf ≤ 70 →
      (processReading s r).2 = false) ∧
    (∀ (s : SysState) (rs : List Reading),
      (firedTimes s rs).Pairwise (fun a b => a + voice_cooldown ≤ b)) :=
  ⟨processReading_fires_iff, processReading_no_fire, fun s rs => firedTimes_pairwise rs s⟩

/-- Witness for C2: in the initial session state a reading of confidence 90
at time 10 fires; with voice disabled it does not; the fired times of a
concrete run are cooldown-separated. -/
theorem voice_notifier_spec_inst :
    (processReading (sysInit true) ⟨10, "t1", "d0", "happy", 90, [("happy", 90)]⟩).2 = true ∧
    (processReading
      { sysInit true with voice := { ttsAvailable := true, voiceEnabled := false, lastVoiceTime := 0 } }
      ⟨10, "t1", "d0", "happy", 90, [("happy", 90)]⟩).2 = false ∧
    (firedTimes (sysInit true)
      [⟨10, "t1", "d0", "happy", 90, [("happy", 90)]⟩]).Pairwise
        (fun a b => a + voice_cooldown ≤ b) :=
  ⟨(voice_notifier_spec.1 (sysInit true) ⟨10, "t1", "d0", "happy", 90, [("happy", 90)]⟩
      rfl (by decide)).mpr
      ⟨rfl, by decide, by simp +decide [sysInit, voice_cooldown]⟩,
    voice_notifier_spec.2.1 _ ⟨10, "t1", "d0", "happy", 90, [("happy", 90)]⟩ (Or.inl rfl),
    voice_notifier_spec.2.2 (sysInit true) _⟩

/-- C10: invoking the screenshot command in the GUI state before any frame
has been captured (`self.current_frame` never assigned) writes no file and
shows no dialog; `take_screenshot` is total, so no error is raised. -/
theorem screenshot_noop_before_first_frame :
    ∀ ts : String, take_screenshot guiInit.current_frame ts =
      { fileWritten := none, dialogShown := false } :=
  fun _ => rfl

/-- C5 counterexample: after a successful classification of `happy` at
confidence 60 on tick 3, a classifier failure on tick 6 leaves the
persistent current reading at `("happy", 60)` — it does not become the
`("unknown", 0, {})` sentinel, because the `if emotion != "unknown"` guard
skips the update on failure. -/
theorem reading_retained_on_failure_cex :
    (guiRun startedGui guiScriptC5).sys.current_emotion = "happy" ∧
    (guiRun startedGui guiScriptC5).sys.current_confidence = 60 ∧
    (guiRun startedGui guiScriptC5).sys.current_emotion ≠ "unknown" := by
  refine ⟨by decide, by decide, by decide⟩

/-- C5 (amended): on a classification tick where the classifier fails
(returns the `("unknown", 0, {})` sentinel), the persistent current
reading, the log files and the voice state are all left unchanged — no log
record is written and no voice notification fires — the queued display
item repeats the retained reading, and the loop continues to the next
tick. -/
theorem classifier_failure_tick_spec (g : GuiState) (i : GuiInput)
    (hrun : g.gui_running = true) (hread : i.readOk = true)
    (hclass : (g.frame_count + 1) % 3 = 0)
    (hfail : detect_emotion i.model = ("unknown", 0, [])) :
    process_video_tick g i =
      ({ g with
          current_frame := some i.frame,
          frame_count := g.frame_count + 1,
          queue := queue_put g.queue (i.frame, g.sys.current_emotion, g.sys.current_confidence) },
        true) := by
  simp [process_video_tick, processReading, hrun, hread, hclass, hfail, queue_put]

/-- Witness for C5 (amended): a concrete failing classification tick keeps
looping and leaves the session state untouched. -/
theorem classifier_failure_tick_spec_inst :
    (process_video_tick guiPreClassifyTick failingClassifyInput).2 = true ∧
    (process_video_tick guiPreClassifyTick failingClassifyInput).1.sys =
      guiPreClassifyTick.sys := by
  have h := classifier_failure_tick_spec guiPreClassifyTick failingClassifyInput
    rfl rfl (by decide) rfl
  rw [h]
  exact ⟨rfl, rfl⟩

/-- C6 counterexample: in the GUI front end a frame-acquisition failure
merely exits the background thread: the camera is not released and the
session is not marked stopped, contradicting the claim that the transition
releases the camera in every front end. -/
theorem gui_read_failure_no_release_cex :
    (guiRun startedGui [badRead]).camReleased = false ∧
    (guiRun startedGui [badRead]).gui_running = true := by
  exact ⟨rfl, rfl⟩

/-- C6 (amended): in the console front end a frame-read failure, or a quit
keypress on a tick whose render step does not crash (a classification tick
or any tick after the first classification), ends the loop through
`cleanup`, which releases the camera, destroys the display windows and
clears the running flag; in the GUI front end the stop command releases
the camera and clears the display, but a frame-acquisition failure merely
exits the background thread without releasing anything. -/
theorem stop_transition_release_spec :
    (∀ (c : ConsoleState) (i : ConsoleInput) (is : List ConsoleInput), i.readOk = false →
      consoleRun c (i :: is) = Except.ok (cleanup c)) ∧
    (∀ c : ConsoleState, (cleanup c).camReleased = true ∧
      (cleanup c).windowsDestroyed = true ∧ (cleanup c).is_running = false) ∧
    (∀ (c : ConsoleState) (i : ConsoleInput) (is : List ConsoleInput), i.readOk = true →
      i.key = Key.q → ((c.frame_count + 1) % 3 = 0 ∨ c.all_emotions_local.isSome = true) →
      ∃ c1, consoleRun c (i :: is) = Except.ok (cleanup c1)) ∧
    (∀ g : GuiState, (stop_camera g).camReleased = true ∧
      (stop_camera g).displayCleared = true ∧ (stop_camera g).gui_running = false) ∧
    (∀ (g : GuiState) (i : GuiInput) (is : List GuiInput), g.gui_running = true →
      i.readOk = false → guiRun g (i :: is) = g) := by
  refine ⟨?_, fun c => ⟨rfl, rfl, rfl⟩, ?_, fun g => ⟨rfl, rfl, rfl⟩, ?_⟩
  · intro c i is h
    simp [consoleRun, consoleTick, h]
  · intro c i is hread hkey hbound
    by_cases h3 : (c.frame_count + 1) % 3 = 0
    · refine ⟨{ c with
          sys := (processReading c.sys
            ⟨i.time, i.ts, i.date, (detect_emotion i.model).1,
              (detect_emotion i.model).2.1, (detect_emotion i.model).2.2⟩).1,
          frame_count := c.frame_count + 1,
          all_emotions_local := some (detect_emotion i.model).2.2 }, ?_⟩
      simp [consoleRun, consoleTick, hread, hkey, h3]
    · have hb : c.all_emotions_local.isSome = true := by
        rcases hbound with hb | hb
        · exact absurd hb h3
        · exact hb
      obtain ⟨v, hv⟩ := Option.isSome_iff_exists.mp hb
      refine ⟨{ c with frame_count := c.frame_count + 1 }, ?_⟩
      simp [consoleRun, consoleTick, hread, hkey, h3, hv]
  · intro g i is hg hr
    simp [guiRun, process_video_tick, hg, hr]

/-- Witness for C6 (amended): a concrete read failure and a concrete quit
keypress stop the console session with the camera released; a concrete GUI
read failure leaves the state untouched. -/
theorem stop_transition_release_spec_inst :
    consoleRun consoleInit [badConsoleRead] = Except.ok (cleanup consoleInit) ∧
    (∃ c1, consoleRun consoleWithReading [quitInput] = Except.ok (cleanup c1)) ∧
    guiRun startedGui [badRead] = startedGui :=
  ⟨stop_transition_release_spec.1 consoleInit badConsoleRead [] rfl,
    stop_transition_release_spec.2.2.1 consoleWithReading quitInput [] rfl rfl (Or.inr rfl),
    stop_transition_release_spec.2.2.2.2 startedGui badRead [] rfl rfl⟩

/-- Lemma: a successfully read background-thread tick keeps looping,
appends exactly one item to the hand-off queue and leaves the running flag
untouched. -/
theorem process_video_tick_good (g : GuiState) (i : GuiInput)
    (hg : g.gui_running = true) (hr : i.readOk = true) :
    (process_video_tick g i).2 = true ∧
    (process_video_tick g i).1.queue.length = g.queue.length + 1 ∧
    (process_video_tick g i).1.gui_running = true := by
  by_cases h3 : (g.frame_count + 1) % 3 = 0
  · simp [process_video_tick, hg, hr, h3, queue_put]
  · simp [process_video_tick, hg, hr, h3, queue_put]

/-- Lemma: with no UI tick draining it, the hand-off queue grows by one
item per successfully read frame, without bound. -/
theorem guiRun_replicate_queue_length (i : GuiInput) (hr : i.readOk = true) :
    ∀ (n : Nat) (g : GuiState), g.gui_running = true →
      (guiRun g (List.replicate n i)).queue.length = g.queue.length + n := by
  intro n
  induction n with
  | zero =>
    intro g _
    simp [guiRun]
  | succ n ih =>
    intro g hg
    obtain ⟨ht, hq, hrun⟩ := process_video_tick_good g i hg hr
    simp only [List.replicate_succ, guiRun, ht, if_true]
    rw [ih (process_video_tick g i).1 hrun, hq]
    omega

/-- Lemma: no finite bound dominates the hand-off queue length across all
runs of the background thread. -/
theorem gui_queue_unbounded_lemma :
    ¬ ∃ B : Nat, ∀ n : Nat,
      (guiRun startedGui (List.replicate n goodGuiInput)).queue.length ≤ B := by
  rintro ⟨B, hB⟩
  have h := hB (B + 1)
  rw [guiRun_replicate_queue_length goodGuiInput rfl (B + 1) startedGui rfl] at h
  omega

/-- C8 counterexample: the hand-off queue is not bounded — it is
`queue.Queue()` with the default `maxsize=0`, and with no UI tick draining
it its length exceeds every candidate bound, refuting the claim that the
queue between the capture thread and the UI tick is bounded. -/
theorem frame_queue_unbounded_cex :
    ¬ ∃ B : Nat, ∀ n : Nat,
      (guiRun startedGui (List.replicate n goodGuiInput)).queue.length ≤ B :=
  gui_queue_unbounded_lemma

/-- C8 (amended): the hand-off queue is unbounded (`maxsize=0`), while the
UI update tick is as claimed: non-blocking, draining at most one item per
tick, and on an empty queue skipping the tick and retaining the prior
display. -/
theorem update_gui_nonblocking_spec :
    (∀ g : GuiState, g.queue = [] → update_gui g = g) ∧
    (∀ (g : GuiState) (x : QItem) (rest : List QItem), g.queue = x :: rest →
      update_gui g = { g with queue := rest, displayed := some x }) ∧
    frame_queue_maxsize = 0 ∧
    (¬ ∃ B : Nat, ∀ n : Nat,
      (guiRun startedGui (List.replicate n goodGuiInput)).queue.length ≤ B) := by
  refine ⟨?_, ?_, rfl, gui_queue_unbounded_lemma⟩
  · intro g h
    simp [update_gui, h]
  · intro g x rest h
    simp [update_gui, h]

/-- Witness for C8 (amended): the empty-queue tick retains the display and
a one-item queue is drained by exactly one item. -/
theorem update_gui_nonblocking_spec_inst :
    update_gui guiInit = guiInit ∧
    update_gui { guiInit with queue := [(1, "happy", 80)] } =
      { guiInit with queue := [], displayed := some (1, "happy", 80) } :=
  ⟨update_gui_nonblocking_spec.1 guiInit rfl,
    update_gui_nonblocking_spec.2.1 { guiInit with queue := [(1, "happy", 80)] }
      (1, "happy", 80) [] rfl⟩

/-- C9 counterexample: in the interleaving where `stop_camera` runs
entirely between the thread's `while` guard (which still saw
`is_running = True`) and its `cap.read()`, the camera is released while
the background thread is still mid-iteration, about to read — it has
neither observed the stop nor exited. -/
theorem release_while_thread_midread_cex :
    (interleave ⟨true, false, VPos.loopCheck⟩
      [StopEvt.thread, StopEvt.stopSetFlag, StopEvt.stopRelease]).camReleased = true ∧
    (interleave ⟨true, false, VPos.loopCheck⟩
      [StopEvt.thread, StopEvt.stopSetFlag, StopEvt.stopRelease]).pos = VPos.camRead := by
  exact ⟨rfl, rfl⟩

/-- C9 (amended): stopping sets the running flag and then immediately
releases the camera, regardless of where the background thread is — there
is no join; the background thread observes the cleared flag at the top of
its next loop iteration and exits, and a read attempted after the release
fails and also exits the thread. -/
theorem stop_camera_no_join_spec :
    (∀ c : ThreadCamState, interleave c [StopEvt.stopSetFlag, StopEvt.stopRelease] =
      { c with is_running := false, camReleased := true }) ∧
    (∀ c : ThreadCamState, c.pos = VPos.loopCheck → c.is_running = false →
      (videoThreadStep c).pos = VPos.exited) ∧
    (∀ c : ThreadCamState, c.pos = VPos.camRead → c.camReleased = true →
      (videoThreadStep c).pos = VPos.exited) := by
  refine ⟨fun c => rfl, ?_, ?_⟩
  · intro c hp hr
    simp [videoThreadStep, hp, hr]
  · intro c hp hr
    simp [videoThreadStep, hp, hr]

/-- Witness for C9 (amended): concrete states for the immediate release,
the flag observation at the loop top, and the failing read after
release. -/
theorem stop_camera_no_join_spec_inst :
    interleave ⟨true, false, VPos.camRead⟩ [StopEvt.stopSetFlag, StopEvt.stopRelease] =
      ⟨false, true, VPos.camRead⟩ ∧
    (videoThreadStep ⟨false, false, VPos.loopCheck⟩).pos = VPos.exited ∧
    (videoThreadStep ⟨false, true, VPos.camRead⟩).pos = VPos.exited :=
  ⟨stop_camera_no_join_spec.1 ⟨true, false, VPos.camRead⟩,
    stop_camera_no_join_spec.2.1 ⟨false, false, VPos.loopCheck⟩ rfl rfl,
    stop_camera_no_join_spec.2.2 ⟨false, true, VPos.camRead⟩ rfl rfl⟩

end EmotionRec
